import Mathlib

/-!
Verification of the P&L analytics engine of the portfolio-management
application (`modules/pnl_calculator.py`, `modules/country_fetcher.py`).

Numeric values (Python floats) are modelled as rationals `ℚ`; every
arithmetic step performed by the code on the inputs considered here is
exact in floating point or concerns only comparisons and sums whose
stated tolerances absorb rounding, so the rational model is faithful.
Pandas element-wise division, which yields `NaN` on `0/0` and `±inf` on
`x/0` (`x ≠ 0`), is modelled explicitly by the `PFloat` type below.
Python dictionaries are modelled as association lists with `List.lookup`.
-/

/-- IEEE-style result of a pandas element-wise division: a finite
rational, a signed infinity, or `NaN`. -/
inductive PFloat where
  | fin (q : ℚ)
  | pinf
  | ninf
  | nan
deriving DecidableEq

/-- Pandas/NumPy float division semantics: `b ≠ 0` gives a finite
quotient, `0/0` gives `NaN`, `x/0` with `x ≠ 0` gives a signed infinity. -/
def pdiv (a b : ℚ) : PFloat :=
  if b ≠ 0 then PFloat.fin (a / b)
  else if a = 0 then PFloat.nan
  else if 0 < a then PFloat.pinf
  else PFloat.ninf

/-- Multiplication of a pandas division result by the positive scalar 100. -/
def pmul100 : PFloat → PFloat
  | PFloat.fin q => PFloat.fin (q * 100)
  | PFloat.pinf => PFloat.pinf
  | PFloat.ninf => PFloat.ninf
  | PFloat.nan => PFloat.nan

/-- `Series.fillna(0)`: replaces `NaN` by `0`; infinities are NOT replaced. -/
def fillna0 : PFloat → PFloat
  | PFloat.nan => PFloat.fin 0
  | x => x

/-- Sum of a numeric column over the rows of a list (pandas `.sum()`,
which is `0` on an empty series). -/
def sumBy {α : Type} (f : α → ℚ) (l : List α) : ℚ := (l.map f).sum

/-- Pandas `Series.max()`: `none` (NaN) on an empty series. -/
def series_max : List ℚ → Option ℚ
  | [] => none
  | x :: xs => some (xs.foldl max x)

/-- Pandas `Series.min()`: `none` (NaN) on an empty series. -/
def series_min : List ℚ → Option ℚ
  | [] => none
  | x :: xs => some (xs.foldl min x)

/-- Contiguous-sublist test on character lists. -/
def isSubListOf (sub : List Char) : List Char → Bool
  | [] => sub.isEmpty
  | c :: t => sub.isPrefixOf (c :: t) || isSubListOf sub t

/-- Python substring containment `sub in s`. -/
def pyContains (sub s : String) : Bool := isSubListOf sub.toList s.toList

/-- `classify_region_by_country` from `modules/country_fetcher.py`:
maps an optional headquarters-country string to a region bucket.
A `none` (Python `None`) or empty string is falsy and yields その他. -/
def classify_region_by_country (country : Option String) : String :=
  match country with
  | none => "その他"
  | some c0 =>
    if c0 = "" then "その他"
    else
      let c := c0.toUpper.trim
      if c ∈ ["JAPAN"] then "日本"
      else if c ∈ ["UNITED STATES", "USA", "US"] then "米国"
      else if c ∈ ["GERMANY", "FRANCE", "UNITED KINGDOM", "UK", "GREAT BRITAIN",
          "ITALY", "SPAIN", "NETHERLANDS", "SWITZERLAND", "SWEDEN",
          "NORWAY", "DENMARK", "FINLAND", "BELGIUM", "AUSTRIA",
          "IRELAND", "PORTUGAL", "LUXEMBOURG", "GREECE", "POLAND",
          "CZECH REPUBLIC", "HUNGARY", "SLOVAKIA", "SLOVENIA",
          "CROATIA", "ROMANIA", "BULGARIA", "ESTONIA", "LATVIA",
          "LITHUANIA", "MALTA", "CYPRUS"] then "欧州"
      else if c ∈ ["CHINA", "SOUTH KOREA", "KOREA", "TAIWAN", "HONG KONG",
          "SINGAPORE", "MALAYSIA", "THAILAND", "INDONESIA",
          "PHILIPPINES", "VIETNAM", "INDIA", "AUSTRALIA",
          "NEW ZEALAND"] then "アジア太平洋"
      else if c ∈ ["CANADA"] then "北米（その他）"
      else "その他"

/-- The ticker-suffix fallback chain: the `else` branch of
`get_region_for_ticker` inside `calculate_sector_allocation`
(`pnl_calculator.py` lines 257-269), verbatim.  Note the Python code
tests substring containment (`'.T' in ticker`), not a suffix. -/
def ticker_suffix_region (ticker : String) : String :=
  if pyContains ".T" ticker || pyContains ".JP" ticker then "日本"
  else if pyContains ".AS" ticker || pyContains ".PA" ticker || pyContains ".DE" ticker
      || pyContains ".MI" ticker || pyContains ".L" ticker then "欧州"
  else if pyContains ".TO" ticker || pyContains ".V" ticker then "北米（その他）"
  else if pyContains ".AX" ticker then "アジア太平洋"
  else if pyContains ".HK" ticker then "アジア太平洋"
  else "米国"

/-- `get_region_for_ticker` (closure inside `calculate_sector_allocation`):
`ticker_countries` is `Optional[Dict[str, Optional[str]]]`.  The Python
guard `if ticker_countries and ticker in ticker_countries` requires the
dictionary to be truthy (not `None`, not empty) and to contain the key;
only then is the stored country (possibly `None`) classified, otherwise
the ticker-suffix fallback runs. -/
def get_region_for_ticker (ticker_countries : Option (List (String × Option String)))
    (ticker : String) : String :=
  match ticker_countries with
  | some m =>
    if !m.isEmpty && (m.lookup ticker).isSome then
      classify_region_by_country ((m.lookup ticker).join)
    else ticker_suffix_region ticker
  | none => ticker_suffix_region ticker

/-- The per-position result dictionary built by `calculate_pnl`. -/
structure PnlData where
  ticker : String
  shares : ℚ
  avg_cost_jpy : ℚ
  current_price_local : ℚ
  current_price_jpy : ℚ
  exchange_rate : ℚ
  current_value_jpy : ℚ
  cost_basis_jpy : ℚ
  pnl_amount : ℚ
  pnl_percentage : ℚ
deriving DecidableEq

/-- `calculate_pnl` (`pnl_calculator.py` lines 14-79).  The `try` body is
pure float arithmetic and cannot raise, so the `except` branch is dead
for numeric inputs and the model is the `try` body. -/
def calculate_pnl (ticker : String) (shares avg_cost_jpy current_price_local : ℚ)
    (exchange_rate : ℚ) : PnlData :=
  let current_price_jpy := current_price_local * exchange_rate
  let current_value_jpy := current_price_jpy * shares
  let cost_basis_jpy := avg_cost_jpy * shares
  let pnl_amount := current_value_jpy - cost_basis_jpy
  let pnl_percentage := if 0 < cost_basis_jpy then pnl_amount / cost_basis_jpy * 100 else 0
  { ticker := ticker, shares := shares, avg_cost_jpy := avg_cost_jpy,
    current_price_local := current_price_local, current_price_jpy := current_price_jpy,
    exchange_rate := exchange_rate, current_value_jpy := current_value_jpy,
    cost_basis_jpy := cost_basis_jpy, pnl_amount := pnl_amount,
    pnl_percentage := pnl_percentage }

/-- The `rate_mapping` dictionary of `get_exchange_rate_for_currency`. -/
def rate_mapping : List (String × String) :=
  [("USD", "USDJPY=X"), ("EUR", "EURJPY=X"), ("GBP", "GBPJPY=X"),
   ("AUD", "AUDJPY=X"), ("CAD", "CADJPY=X"), ("CHF", "CHFJPY=X")]

/-- The `fallback_rates` dictionary of `get_exchange_rate_for_currency`. -/
def fallback_rates : List (String × ℚ) :=
  [("USD", 150), ("EUR", 160), ("GBP", 180), ("AUD", 100), ("CAD", 110),
   ("CHF", 165), ("HKD", 19), ("SGD", 110), ("CNY", 21), ("KRW", 11/100)]

/-- `get_exchange_rate_for_currency` (`pnl_calculator.py` lines 135-176).
The table is consulted only when `rate_mapping` yields a pair symbol for
the currency (the symbols are non-empty strings, so Python truthiness of
`rate_symbol` is just presence). -/
def get_exchange_rate_for_currency (currency : String)
    (exchange_rates : List (String × ℚ)) : ℚ :=
  if currency = "JPY" then 1
  else
    match rate_mapping.lookup currency with
    | some rate_symbol =>
      match exchange_rates.lookup rate_symbol with
      | some r => r
      | none => (fallback_rates.lookup currency).getD 1
    | none => (fallback_rates.lookup currency).getD 1

/-- A row of the portfolio CSV (`Ticker,Shares,AvgCostJPY`). -/
structure PortfolioRow where
  ticker : String
  shares : ℚ
  avg_cost_jpy : ℚ
deriving DecidableEq

/-- A row of the P&L DataFrame built by `calculate_portfolio_pnl`:
the `calculate_pnl` dictionary plus the added `currency` column. -/
structure PnlRow extends PnlData where
  currency : String
deriving DecidableEq

/-- `calculate_portfolio_pnl` (`pnl_calculator.py` lines 82-132). -/
def calculate_portfolio_pnl (portfolio : List PortfolioRow)
    (current_prices : List (String × ℚ)) (exchange_rates : List (String × ℚ))
    (currency_mapping : List (String × String)) : List PnlRow :=
  portfolio.map (fun row =>
    let current_price_local := (current_prices.lookup row.ticker).getD 0
    let currency := (currency_mapping.lookup row.ticker).getD "USD"
    let exchange_rate := get_exchange_rate_for_currency currency exchange_rates
    { toPnlData := calculate_pnl row.ticker row.shares row.avg_cost_jpy
        current_price_local exchange_rate,
      currency := currency })

/-- The summary dictionary built by `calculate_portfolio_summary`.
`max_gain_amount` etc. are `Option ℚ` because pandas `.max()`/`.min()`
yield `NaN` (`none`) on an empty column. -/
structure PortfolioSummary where
  total_positions : ℕ
  total_cost_basis_jpy : ℚ
  total_current_value_jpy : ℚ
  total_pnl_amount_jpy : ℚ
  overall_pnl_percentage : ℚ
  win_rate : ℚ
  profitable_positions : ℕ
  losing_positions : ℕ
  max_gain_amount : Option ℚ
  max_loss_amount : Option ℚ
  max_gain_percentage : Option ℚ
  max_loss_percentage : Option ℚ
  max_gain_ticker : String
  max_loss_ticker : String
  average_position_size : ℚ
deriving DecidableEq

/-- `calculate_portfolio_summary` (`pnl_calculator.py` lines 179-234).
The `try` body raises only when the DataFrame lacks the expected columns
(in which case the `except` returns `{}`); over a list of rows every
step below is total, so the model is the `try` body.  `idxmax`/`idxmin`
return the first index attaining the extremum, hence `List.find?`. -/
def calculate_portfolio_summary (l : List PnlData) : PortfolioSummary :=
  let total_cost_basis := sumBy (fun p => p.cost_basis_jpy) l
  let total_current_value := sumBy (fun p => p.current_value_jpy) l
  let total_pnl_amount := sumBy (fun p => p.pnl_amount) l
  let overall_pnl_percentage :=
    if 0 < total_cost_basis then total_pnl_amount / total_cost_basis * 100 else 0
  let profitable_positions := l.countP (fun p => decide (0 < p.pnl_amount))
  let total_positions := l.length
  let win_rate :=
    if 0 < total_positions then ((profitable_positions : ℚ) / (total_positions : ℚ)) * 100 else 0
  let max_gain := series_max (l.map (fun p => p.pnl_amount))
  let max_loss := series_min (l.map (fun p => p.pnl_amount))
  let max_gain_pct := series_max (l.map (fun p => p.pnl_percentage))
  let max_loss_pct := series_min (l.map (fun p => p.pnl_percentage))
  let max_gain_ticker :=
    if l.isEmpty then ""
    else ((l.find? (fun p => p.pnl_amount == max_gain.getD 0)).map (fun p => p.ticker)).getD ""
  let max_loss_ticker :=
    if l.isEmpty then ""
    else ((l.find? (fun p => p.pnl_amount == max_loss.getD 0)).map (fun p => p.ticker)).getD ""
  { total_positions := total_positions,
    total_cost_basis_jpy := total_cost_basis,
    total_current_value_jpy := total_current_value,
    total_pnl_amount_jpy := total_pnl_amount,
    overall_pnl_percentage := overall_pnl_percentage,
    win_rate := win_rate,
    profitable_positions := profitable_positions,
    losing_positions := total_positions - profitable_positions,
    max_gain_amount := max_gain,
    max_loss_amount := max_loss,
    max_gain_percentage := max_gain_pct,
    max_loss_percentage := max_loss_pct,
    max_gain_ticker := max_gain_ticker,
    max_loss_ticker := max_loss_ticker,
    average_position_size :=
      if 0 < total_positions then total_cost_basis / (total_positions : ℚ) else 0 }

/-- A row of the region-allocation DataFrame returned by
`calculate_sector_allocation` after `reset_index()`.  `pnl_percentage`
is a `PFloat` because the pandas column division can produce `NaN`
(then filled with 0) or infinities (left as is by `fillna`). -/
structure RegionAllocation where
  country : String
  current_value_jpy : ℚ
  cost_basis_jpy : ℚ
  pnl_amount : ℚ
  position_count : ℕ
  allocation_percentage : ℚ
  pnl_percentage : PFloat
deriving DecidableEq

/-- `calculate_sector_allocation` (`pnl_calculator.py` lines 237-298).
Groups rows by `get_region_for_ticker`, sums the numeric columns and a
row count per group, computes `allocation_percentage` against the sum of
the grouped value column (a scalar 0 for every row when that total is
not positive), and `pnl_percentage` as the pandas column division
followed by `.fillna(0)`.  Pandas sorts group keys; group order does not
affect any property stated here, so groups are taken in first-occurrence
order of the keys. -/
def calculate_sector_allocation (ticker_countries : Option (List (String × Option String)))
    (l : List PnlData) : List RegionAllocation :=
  let key := fun p : PnlData => get_region_for_ticker ticker_countries p.ticker
  let ks := (l.map key).dedup
  let groupVal := fun k => sumBy (fun p => p.current_value_jpy) (l.filter (fun p => key p == k))
  let total_value := (ks.map groupVal).sum
  ks.map (fun k =>
    let grp := l.filter (fun p => key p == k)
    let value := sumBy (fun p => p.current_value_jpy) grp
    let cost := sumBy (fun p => p.cost_basis_jpy) grp
    let pnl := sumBy (fun p => p.pnl_amount) grp
    { country := k,
      current_value_jpy := value,
      cost_basis_jpy := cost,
      pnl_amount := pnl,
      position_count := grp.length,
      allocation_percentage := if 0 < total_value then value / total_value * 100 else 0,
      pnl_percentage := fillna0 (pmul100 (pdiv pnl cost)) })

/-- Modelled from the spec: the currency-pair symbol for a currency
(home-per-unit-foreign), as the spec describes the table key the
normalizer looks up; matches every symbol in `rate_mapping`. -/
def specCurrencyPairSymbol (currency : String) : String := currency ++ "JPY=X"

/-- Splitting a column sum along a Boolean predicate. -/
theorem sumBy_filter_split {α : Type} (f : α → ℚ) (p : α → Bool) (l : List α) :
    sumBy f (l.filter p) + sumBy f (l.filter (fun a => !(p a))) = sumBy f l := by
  induction l with
  | nil => simp [sumBy]
  | cons a t ih =>
    cases h : p a <;> simp [sumBy, List.filter_cons, h] at ih ⊢ <;> linarith

/-- Fibers over a key different from `k` are unchanged by removing the
fiber of `k`. -/
theorem filter_erase_other_key {α β : Type} [DecidableEq β] (key : α → β) (k k' : β)
    (hkk : k' ≠ k) (l : List α) :
    (l.filter (fun a => !(key a == k))).filter (fun a => key a == k')
      = l.filter (fun a => key a == k') := by
  induction l with
  | nil => rfl
  | cons a t ih =>
    by_cases h1 : key a = k
    · have h2 : (key a == k') = false := by
        simp only [beq_eq_false_iff_ne, ne_eq, h1]
        exact fun hh => hkk hh.symm
      have h1b : (!(key a == k)) = false := by simp [h1]
      simp [List.filter_cons, h1b, h2, ih]
    · have h1b : (!(key a == k)) = true := by simp [h1]
      by_cases h2 : key a = k'
      · have h2b : (key a == k') = true := by simp [h2]
        simp [List.filter_cons, h1b, h2b, ih]
      · have h2b : (key a == k') = false := by simp [h2]
        simp [List.filter_cons, h1b, h2b, ih]

/-- Summing the fiber sums over a duplicate-free list of keys covering
every key of `l` recovers the total sum. -/
theorem sum_fiberwise {α β : Type} [DecidableEq β] (key : α → β) (f : α → ℚ) :
    ∀ (ks : List β) (l : List α), ks.Nodup → (∀ a ∈ l, key a ∈ ks) →
      (ks.map (fun k => sumBy f (l.filter (fun a => key a == k)))).sum = sumBy f l := by
  intro ks
  induction ks with
  | nil =>
    intro l _ hcov
    cases l with
    | nil => simp [sumBy]
    | cons a t => exact absurd (hcov a (by simp)) (by simp)
  | cons k ks ih =>
    intro l hnd hcov
    have hk : k ∉ ks := (List.nodup_cons.mp hnd).1
    have hnd' : ks.Nodup := (List.nodup_cons.mp hnd).2
    have hcov2 : ∀ a ∈ l.filter (fun a => !(key a == k)), key a ∈ ks := by
      intro a ha
      have hmem := (List.mem_filter.mp ha).1
      have hne : key a ≠ k := by
        have := (List.mem_filter.mp ha).2
        simpa using this
      rcases List.mem_cons.mp (hcov a hmem) with h | h
      · exact absurd h hne
      · exact h
    have hterm : ks.map (fun k' => sumBy f (l.filter (fun a => key a == k')))
        = ks.map (fun k' =>
            sumBy f ((l.filter (fun a => !(key a == k))).filter (fun a => key a == k'))) := by
      refine List.map_congr_left ?_
      intro k' hk'
      rw [filter_erase_other_key key k k' (fun h => hk (h ▸ hk')) l]
    rw [List.map_cons, List.sum_cons, hterm,
      ih (l.filter (fun a => !(key a == k))) hnd' hcov2,
      sumBy_filter_split]

/-- Instance of `sum_fiberwise` for the deduplicated key list that
models a pandas `groupby`. -/
theorem sum_fiber_dedup {α β : Type} [DecidableEq β] (key : α → β) (f : α → ℚ) (l : List α) :
    (((l.map key).dedup).map (fun k => sumBy f (l.filter (fun a => key a == k)))).sum
      = sumBy f l :=
  sum_fiberwise key f _ l (List.nodup_dedup _)
    (fun _a ha => List.mem_dedup.mpr (List.mem_map_of_mem key ha))

/-- Pulling a common `/ c * 100` out of a mapped sum. -/
theorem sum_map_div_mul100 {β : Type} (ks : List β) (g : β → ℚ) (c : ℚ) :
    (ks.map (fun k => g k / c * 100)).sum = (ks.map g).sum / c * 100 := by
  induction ks with
  | nil => simp
  | cons k t ih =>
    simp only [List.map_cons, List.sum_cons, ih]
    ring

/-- When the currency has a pair symbol in `rate_mapping`, the rate is
the table entry when present, else the fallback. -/
theorem rate_for_mapped_currency (c sym : String) (rates : List (String × ℚ))
    (hc : ¬c = "JPY") (hmap : rate_mapping.lookup c = some sym) :
    get_exchange_rate_for_currency c rates
      = (rates.lookup sym).getD ((fallback_rates.lookup c).getD 1) := by
  unfold get_exchange_rate_for_currency
  rw [if_neg hc, hmap]
  cases hr : rates.lookup sym <;> simp [hr]

/-- When the currency has no pair symbol in `rate_mapping`, the table is
never consulted and the fallback value (default 1) is returned. -/
theorem rate_for_unmapped_currency (c : String) (rates : List (String × ℚ))
    (hc : ¬c = "JPY") (hmap : rate_mapping.lookup c = none) :
    get_exchange_rate_for_currency c rates = (fallback_rates.lookup c).getD 1 := by
  unfold get_exchange_rate_for_currency
  rw [if_neg hc, hmap]

/-- C1 (amended): with `current_price_local = 0`, `calculate_pnl` always
returns `current_price_jpy = 0`, `current_value_jpy = 0` and
`pnl_amount = -cost_basis_jpy`; `pnl_percentage` is `-100` exactly when
the cost basis is strictly positive and `0` otherwise (in particular
when `avg_cost_jpy = 0`). -/
theorem c1_missing_quote_corrected (t : String) (shares avg_cost rate : ℚ) :
    (calculate_pnl t shares avg_cost 0 rate).current_price_jpy = 0
  ∧ (calculate_pnl t shares avg_cost 0 rate).current_value_jpy = 0
  ∧ (calculate_pnl t shares avg_cost 0 rate).pnl_amount
      = -(calculate_pnl t shares avg_cost 0 rate).cost_basis_jpy
  ∧ (calculate_pnl t shares avg_cost 0 rate).pnl_percentage
      = (if 0 < avg_cost * shares then -100 else 0) := by
  refine ⟨by simp [calculate_pnl], by simp [calculate_pnl], by simp [calculate_pnl], ?_⟩
  simp only [calculate_pnl, zero_mul, zero_sub]
  split_ifs with h
  · rw [neg_div, div_self (ne_of_gt h)]
    norm_num
  · rfl

/-- C1 counterexample: at `avg_cost_jpy = 0` (zero cost basis) and
`current_price_local = 0`, the returned `pnl_percentage` is `0`, not
`-100` as the claim asserts for all values of `avg_cost_home`. -/
theorem c1_missing_quote_counterexample :
    (calculate_pnl "AAPL" 1 0 0 150).pnl_percentage = 0
  ∧ ¬(calculate_pnl "AAPL" 1 0 0 150).pnl_percentage = -100 := by
  constructor <;> norm_num [calculate_pnl]

/-- C3: the ticker-suffix fallback classifies `"RY.TO"` (a Toronto
Stock Exchange ticker, no country data) as 日本 (Japan), because the
Python code tests substring containment and `'.T' in 'RY.TO'` holds, so
the Japan branch fires before the (then unreachable) `.TO` branch; the
claim and the code's own `.TO` branch say 北米（その他）. -/
theorem c3_ticker_suffix_eval :
    get_region_for_ticker none "RY.TO" = "日本"
  ∧ ticker_suffix_region "RY.TO" = "日本"
  ∧ ¬("日本" : String) = "北米（その他）" := by
  refine ⟨by decide, by decide, by decide⟩

/-- C4 (amended): `JPY` yields exactly 1; for the six currencies with a
`rate_mapping` pair symbol the table entry is returned when present and
the fallback otherwise; for `HKD`, `SGD`, `CNY`, `KRW` the hard-coded
fallback is always returned — the FX table is never consulted for them,
even when it contains their pair symbol; for any currency with neither
a pair symbol nor a fallback entry, 1 is returned. -/
theorem c4_exchange_rate_corrected (rates : List (String × ℚ)) (c : String) :
    (c = "JPY" → get_exchange_rate_for_currency c rates = 1)
  ∧ (c ∈ ["USD", "EUR", "GBP", "AUD", "CAD", "CHF"] →
      get_exchange_rate_for_currency c rates
        = (rates.lookup (specCurrencyPairSymbol c)).getD ((fallback_rates.lookup c).getD 1))
  ∧ (c ∈ ["HKD", "SGD", "CNY", "KRW"] →
      get_exchange_rate_for_currency c rates = (fallback_rates.lookup c).getD 1)
  ∧ (¬c = "JPY" → rate_mapping.lookup c = none → fallback_rates.lookup c = none →
      get_exchange_rate_for_currency c rates = 1) := by
  refine ⟨?_, ?_, ?_, ?_⟩
  · intro h
    rw [h]
    unfold get_exchange_rate_for_currency
    rw [if_pos rfl]
  · intro h
    simp only [List.mem_cons, List.not_mem_nil, or_false] at h
    rcases h with rfl | rfl | rfl | rfl | rfl | rfl <;>
      exact rate_for_mapped_currency _ _ rates (by decide) rfl
  · intro h
    simp only [List.mem_cons, List.not_mem_nil, or_false] at h
    rcases h with rfl | rfl | rfl | rfl <;>
      exact rate_for_unmapped_currency _ rates (by decide) rfl
  · intro h1 h2 h3
    rw [rate_for_unmapped_currency c rates h1 h2, h3]
    rfl

/-- C4 witness: concrete instances of the four cases of the amended
statement. -/
theorem c4_exchange_rate_witness :
    get_exchange_rate_for_currency "JPY" [] = 1
  ∧ get_exchange_rate_for_currency "USD" [("USDJPY=X", 151)] = 151
  ∧ get_exchange_rate_for_currency "HKD" [("HKDJPY=X", 20)] = 19
  ∧ get_exchange_rate_for_currency "XYZ" [] = 1 := by
  refine ⟨(c4_exchange_rate_corrected [] "JPY").1 rfl, ?_, ?_, ?_⟩
  · exact (c4_exchange_rate_corrected [("USDJPY=X", 151)] "USD").2.1 (by simp)
  · exact (c4_exchange_rate_corrected [("HKDJPY=X", 20)] "HKD").2.2.1 (by simp)
  · exact (c4_exchange_rate_corrected [] "XYZ").2.2.2 (by decide) (by decide) (by decide)

/-- C4 counterexample: the FX table contains the pair symbol for `HKD`
with rate 20, but the function returns the hard-coded fallback 19, so
the claim "if the table contains the currency-pair symbol for that
currency, the table's rate is returned" fails for `HKD`. -/
theorem c4_exchange_rate_counterexample :
    [(specCurrencyPairSymbol "HKD", (20 : ℚ))].lookup (specCurrencyPairSymbol "HKD")
        = some 20
  ∧ get_exchange_rate_for_currency "HKD" [(specCurrencyPairSymbol "HKD", 20)] = 19
  ∧ ¬(19 : ℚ) = 20 := by
  refine ⟨by decide, by decide, by norm_num⟩

/-- C7: `calculate_pnl` sets `pnl_percentage = pnl_amount /
cost_basis_jpy * 100` exactly whenever the cost basis is strictly
positive, and `0` when the cost basis is zero. -/
theorem c7_pnl_percentage_confirmed (t : String) (shares avg_cost price rate : ℚ) :
    (0 < (calculate_pnl t shares avg_cost price rate).cost_basis_jpy →
      (calculate_pnl t shares avg_cost price rate).pnl_percentage
        = (calculate_pnl t shares avg_cost price rate).pnl_amount
            / (calculate_pnl t shares avg_cost price rate).cost_basis_jpy * 100)
  ∧ ((calculate_pnl t shares avg_cost price rate).cost_basis_jpy = 0 →
      (calculate_pnl t shares avg_cost price rate).pnl_percentage = 0) := by
  constructor
  · intro h
    simp only [calculate_pnl] at h ⊢
    rw [if_pos h]
  · intro h
    simp only [calculate_pnl] at h ⊢
    rw [if_neg (by rw [h]; exact lt_irrefl 0)]

/-- C7 witness: a position with positive cost basis and one with zero
cost basis. -/
theorem c7_pnl_percentage_witness :
    (calculate_pnl "A" 2 3 5 1).pnl_percentage
      = (calculate_pnl "A" 2 3 5 1).pnl_amount
          / (calculate_pnl "A" 2 3 5 1).cost_basis_jpy * 100
  ∧ (calculate_pnl "B" 0 1 1 1).pnl_percentage = 0 := by
  constructor
  · exact (c7_pnl_percentage_confirmed "A" 2 3 5 1).1 (by norm_num [calculate_pnl])
  · exact (c7_pnl_percentage_confirmed "B" 0 1 1 1).2 (by norm_num [calculate_pnl])

/-- C8: on an empty list of position results, `calculate_portfolio_summary`
returns the zeroed summary (pandas sums of empty columns are 0, the
guarded ratios are 0, the extremum columns are `NaN`/`none`, the
extremal tickers the empty string) — it does not raise. -/
theorem c8_empty_summary_confirmed :
    calculate_portfolio_summary [] =
      { total_positions := 0, total_cost_basis_jpy := 0, total_current_value_jpy := 0,
        total_pnl_amount_jpy := 0, overall_pnl_percentage := 0, win_rate := 0,
        profitable_positions := 0, losing_positions := 0, max_gain_amount := none,
        max_loss_amount := none, max_gain_percentage := none, max_loss_percentage := none,
        max_gain_ticker := "", max_loss_ticker := "", average_position_size := 0 } := by
  rfl

/-- C6: the summary's total P&L is the sum of the per-position
`pnl_amount` column, and the win rate always lies in `[0, 100]`. -/
theorem c6_summary_invariants_confirmed (l : List PnlData) (h : ¬l = []) :
    (calculate_portfolio_summary l).total_pnl_amount_jpy
      = (l.map (fun p => p.pnl_amount)).sum
  ∧ 0 ≤ (calculate_portfolio_summary l).win_rate
  ∧ (calculate_portfolio_summary l).win_rate ≤ 100 := by
  have hlen : 0 < l.length := List.length_pos.mpr h
  have hl : (0 : ℚ) < (l.length : ℚ) := by exact_mod_cast hlen
  have hc : ((l.countP (fun p => decide (0 < p.pnl_amount))) : ℚ) ≤ (l.length : ℚ) := by
    exact_mod_cast List.countP_le_length _
  refine ⟨rfl, ?_, ?_⟩
  · simp only [calculate_portfolio_summary]
    rw [if_pos hlen]
    positivity
  · simp only [calculate_portfolio_summary]
    rw [if_pos hlen]
    have h1 : ((l.countP (fun p => decide (0 < p.pnl_amount))) : ℚ) / (l.length : ℚ) ≤ 1 :=
      (div_le_one hl).mpr hc
    linarith

/-- C6 witness: a one-position portfolio. -/
theorem c6_summary_invariants_witness :
    (calculate_portfolio_summary [calculate_pnl "AAPL" 1 1 2 1]).total_pnl_amount_jpy
      = ([calculate_pnl "AAPL" 1 1 2 1].map (fun p => p.pnl_amount)).sum
  ∧ 0 ≤ (calculate_portfolio_summary [calculate_pnl "AAPL" 1 1 2 1]).win_rate
  ∧ (calculate_portfolio_summary [calculate_pnl "AAPL" 1 1 2 1]).win_rate ≤ 100 :=
  c6_summary_invariants_confirmed [calculate_pnl "AAPL" 1 1 2 1] (by simp)

/-- The rate resolved for `"USD"` is the table's `USDJPY=X` entry when
present and the 150 fallback otherwise. -/
theorem usd_rate (rates : List (String × ℚ)) :
    get_exchange_rate_for_currency "USD" rates = (rates.lookup "USDJPY=X").getD 150 := by
  rw [rate_for_mapped_currency "USD" "USDJPY=X" rates (by decide) rfl]
  have h150 : (fallback_rates.lookup "USD").getD 1 = 150 := by decide
  rw [h150]

/-- C9: a ticker absent from `currency_mapping` is priced as a `USD`
position — the result row carries `currency = "USD"` and the exchange
rate `get_exchange_rate_for_currency` resolves for `"USD"` (the table's
`USDJPY=X` entry, or the 150 fallback). -/
theorem c9_missing_currency_confirmed (portfolio : List PortfolioRow)
    (prices rates : List (String × ℚ)) (cm : List (String × String))
    (r : PnlRow) (hr : r ∈ calculate_portfolio_pnl portfolio prices rates cm)
    (hcm : cm.lookup r.ticker = none) :
    r.currency = "USD"
  ∧ r.exchange_rate = get_exchange_rate_for_currency "USD" rates
  ∧ r.exchange_rate = (rates.lookup "USDJPY=X").getD 150 := by
  simp only [calculate_portfolio_pnl] at hr
  rcases List.mem_map.mp hr with ⟨row, _hrow, heq⟩
  have hticker : r.ticker = row.ticker := by rw [← heq]; rfl
  rw [hticker] at hcm
  have hcur : r.currency = (cm.lookup row.ticker).getD "USD" := by rw [← heq]
  have hex : r.exchange_rate
      = get_exchange_rate_for_currency ((cm.lookup row.ticker).getD "USD") rates := by
    rw [← heq]; rfl
  rw [hcm] at hcur hex
  simp only [Option.getD_none] at hcur hex
  exact ⟨hcur, hex, by rw [hex, usd_rate]⟩

/-- C9 witness: one position, empty currency mapping and FX table. -/
theorem c9_missing_currency_witness :
    ({ toPnlData := calculate_pnl "MSFT" 1 100 0 (get_exchange_rate_for_currency "USD" []),
       currency := "USD" } : PnlRow).currency = "USD"
  ∧ ({ toPnlData := calculate_pnl "MSFT" 1 100 0 (get_exchange_rate_for_currency "USD" []),
       currency := "USD" } : PnlRow).exchange_rate
      = get_exchange_rate_for_currency "USD" []
  ∧ ({ toPnlData := calculate_pnl "MSFT" 1 100 0 (get_exchange_rate_for_currency "USD" []),
       currency := "USD" } : PnlRow).exchange_rate
      = (([] : List (String × ℚ)).lookup "USDJPY=X").getD 150 :=
  c9_missing_currency_confirmed [⟨"MSFT", 1, 100⟩] [] [] [] _ (List.Mem.head _) rfl

/-- C10: a key present in `ticker_countries` with value `None` goes
through `classify_region_by_country None` and lands in その他; the
ticker-suffix fallback runs exactly when the mapping is `None`, empty,
or lacks the key. -/
theorem c10_none_country_confirmed (m : List (String × Option String)) (t : String)
    (tc : Option (List (String × Option String))) (s : String)
    (h1 : ¬m = []) (h2 : m.lookup t = some none)
    (h3 : tc = none ∨ tc = some [] ∨ (∃ m2, tc = some m2 ∧ m2.lookup s = none)) :
    get_region_for_ticker (some m) t = classify_region_by_country none
  ∧ classify_region_by_country none = "その他"
  ∧ get_region_for_ticker tc s = ticker_suffix_region s := by
  refine ⟨?_, rfl, ?_⟩
  · have hempty : m.isEmpty = false := by
      cases m with
      | nil => exact absurd rfl h1
      | cons a t2 => rfl
    show (if (!m.isEmpty && (m.lookup t).isSome) = true
        then classify_region_by_country ((m.lookup t).join)
        else ticker_suffix_region t) = classify_region_by_country none
    rw [h2, hempty]
    rfl
  · rcases h3 with rfl | rfl | ⟨m2, rfl, hm2⟩
    · rfl
    · rfl
    · show (if (!m2.isEmpty && (m2.lookup s).isSome) = true
          then classify_region_by_country ((m2.lookup s).join)
          else ticker_suffix_region s) = ticker_suffix_region s
      rw [hm2]
      simp

/-- Case analysis of the pandas division-then-`fillna(0)` pipeline used
for the region `pnl_percentage` column. -/
theorem pdiv_fillna_cases (a b : ℚ) :
    (¬b = 0 → fillna0 (pmul100 (pdiv a b)) = PFloat.fin (a / b * 100))
  ∧ (b = 0 → a = 0 → fillna0 (pmul100 (pdiv a b)) = PFloat.fin 0)
  ∧ (b = 0 → ¬a = 0 →
      (fillna0 (pmul100 (pdiv a b)) = PFloat.pinf
        ∨ fillna0 (pmul100 (pdiv a b)) = PFloat.ninf)) := by
  unfold pdiv
  refine ⟨?_, ?_, ?_⟩
  · intro hb
    rw [if_pos hb]
    rfl
  · intro hb ha
    rw [if_neg (fun h => h hb), if_pos ha]
    rfl
  · intro hb ha
    rw [if_neg (fun h => h hb), if_neg ha]
    by_cases hpos : 0 < a
    · rw [if_pos hpos]
      exact Or.inl rfl
    · rw [if_neg hpos]
      exact Or.inr rfl

/-- C2 (amended): each region row's `pnl_percentage` is the finite value
`pnl_amount / cost_basis_jpy * 100` whenever the region cost basis is
nonzero; when the cost basis is 0 it is 0 only if the region
`pnl_amount` is also 0 (the `NaN` that `fillna(0)` replaces) — with a
zero cost basis and nonzero `pnl_amount` it is `+inf` or `-inf`, which
`fillna` does not touch. -/
theorem c2_region_pnl_percentage_corrected
    (tc : Option (List (String × Option String))) (l : List PnlData)
    (r : RegionAllocation) (hr : r ∈ calculate_sector_allocation tc l) :
    (¬r.cost_basis_jpy = 0 →
      r.pnl_percentage = PFloat.fin (r.pnl_amount / r.cost_basis_jpy * 100))
  ∧ (r.cost_basis_jpy = 0 → r.pnl_amount = 0 → r.pnl_percentage = PFloat.fin 0)
  ∧ (r.cost_basis_jpy = 0 → ¬r.pnl_amount = 0 →
      (r.pnl_percentage = PFloat.pinf ∨ r.pnl_percentage = PFloat.ninf)) := by
  simp only [calculate_sector_allocation] at hr
  rcases List.mem_map.mp hr with ⟨k, _hk, heq⟩
  subst heq
  exact pdiv_fillna_cases _ _

/-- The one-position input whose region row has zero cost basis but
nonzero P&L (a free position whose quote is available). -/
def c2row : PnlData :=
  { ticker := "AAPL", shares := 1, avg_cost_jpy := 0, current_price_local := 1,
    current_price_jpy := 1, exchange_rate := 1, current_value_jpy := 1,
    cost_basis_jpy := 0, pnl_amount := 1, pnl_percentage := 0 }

/-- The region row `calculate_sector_allocation` produces for `c2row`. -/
def c2region : RegionAllocation :=
  { country := "米国", current_value_jpy := 1, cost_basis_jpy := 0, pnl_amount := 1,
    position_count := 1, allocation_percentage := 100, pnl_percentage := PFloat.pinf }

/-- Evaluation of the allocation classifier on the `c2row` input. -/
theorem c2_alloc_eval : calculate_sector_allocation none [c2row] = [c2region] := by
  have hreg : get_region_for_ticker none "AAPL" = "米国" := by decide
  simp only [calculate_sector_allocation, c2row, c2region, hreg, sumBy,
    List.map_cons, List.map_nil, List.dedup_nil,
    List.dedup_cons_of_not_mem (List.not_mem_nil _),
    List.filter, beq_self_eq_true, List.sum_cons, List.sum_nil]
  norm_num [pdiv, pmul100, fillna0]

/-- C2 counterexample: on the `c2row` input the unique region row has
cost basis 0 and `pnl_amount` 1, and its `pnl_percentage` is `+inf` —
not 0 as the claim asserts for zero-cost-basis regions. -/
theorem c2_region_pnl_percentage_counterexample :
    calculate_sector_allocation none [c2row] = [c2region]
  ∧ c2region.cost_basis_jpy = 0
  ∧ c2region.pnl_amount = 1
  ∧ c2region.pnl_percentage = PFloat.pinf
  ∧ ¬PFloat.pinf = PFloat.fin 0 :=
  ⟨c2_alloc_eval, rfl, rfl, rfl, by decide⟩

/-- C2 witness: the amended theorem applied to the `c2region` row. -/
theorem c2_region_pnl_percentage_witness :
    c2region.pnl_percentage = PFloat.pinf ∨ c2region.pnl_percentage = PFloat.ninf :=
  (c2_region_pnl_percentage_corrected none [c2row] c2region
      (by rw [c2_alloc_eval]; exact List.Mem.head _)).2.2 rfl (by norm_num [c2region])

/-- C5: whenever the positions' total current value is strictly
positive, the `allocation_percentage` column of the region allocation
sums to exactly 100 (so certainly within `±1e-6`). -/
theorem c5_allocation_sum_confirmed (tc : Option (List (String × Option String)))
    (l : List PnlData) (h1 : ¬l = [])
    (h2 : 0 < sumBy (fun p => p.current_value_jpy) l) :
    ((calculate_sector_allocation tc l).map (fun r => r.allocation_percentage)).sum
      = 100 := by
  simp only [calculate_sector_allocation, List.map_map, Function.comp]
  have hT := sum_fiber_dedup (fun p : PnlData => get_region_for_ticker tc p.ticker)
    (fun p : PnlData => p.current_value_jpy) l
  simp only [hT, h2, if_true]
  simp only [Function.comp_def]
  rw [sum_map_div_mul100, hT, div_self (ne_of_gt h2)]
  norm_num

/-- The one-position input for the C5 witness. -/
def c5row : PnlData :=
  { ticker := "AAPL", shares := 1, avg_cost_jpy := 1, current_price_local := 1,
    current_price_jpy := 1, exchange_rate := 1, current_value_jpy := 1,
    cost_basis_jpy := 1, pnl_amount := 0, pnl_percentage := 0 }

/-- C5 witness: a non-empty portfolio with positive total value. -/
theorem c5_allocation_sum_witness :
    ((calculate_sector_allocation none [c5row]).map
      (fun r => r.allocation_percentage)).sum = 100 :=
  c5_allocation_sum_confirmed none [c5row] (by simp) (by norm_num [sumBy, c5row])

/-- C10 witness: a one-entry mapping whose value is `None`, and the
fallback on an absent mapping. -/
theorem c10_none_country_witness :
    get_region_for_ticker (some [("AAPL", none)]) "AAPL" = classify_region_by_country none
  ∧ classify_region_by_country none = "その他"
  ∧ get_region_for_ticker none "XOM" = ticker_suffix_region "XOM" :=
  c10_none_country_confirmed [("AAPL", none)] "AAPL" none "XOM" (by simp) (by decide)
    (Or.inl rfl)
